import Mathlib

/-!
Shallow embedding of the homework status bot (`homework.py`,
`custom_exeptions.py`, `custom_types.py`).

The script polls an HTTP endpoint for homework review statuses and relays
them to a Telegram chat.  Python values flowing through the program are
modelled by the inductive type `Py`; Python exceptions by `PyErr`; functions
that may raise return `Except PyErr _`.  The network and the Telegram
transport are external effects, so they enter the model as explicit inputs
(`FetchResult`, `SendOutcome`).  Logging calls are not modelled except where
an error is *only* logged (see `send_message`), where the logged text is
returned so the behaviour stays observable.
-/

/-- A Python value, as far as this program manipulates them: `None`, `int`,
`str`, `list`, `dict` with string keys (all dicts in the program are JSON
objects, hence string-keyed). -/
inductive Py where
  | pyNone : Py
  | pyInt : Int → Py
  | pyStr : String → Py
  | pyList : List Py → Py
  | pyDict : List (String × Py) → Py

/-- The Python exceptions this program raises or catches.  `apiError` is the
custom `APIError` from `custom_exeptions.py`; `jsonDecodeError` is
`requests.exceptions.JSONDecodeError` raised by `res.json()`;
`telegramError` is `telegram.error.TelegramError`. -/
inductive PyErr where
  | typeError : String → PyErr
  | keyError : String → PyErr
  | apiError : String → PyErr
  | connectionError : String → PyErr
  | jsonDecodeError : String → PyErr
  | attributeError : String → PyErr
  | telegramError : String → PyErr
deriving DecidableEq

/-- `str(err)` as used in f-strings of `main`: for `KeyError` Python renders
the repr of its argument, i.e. the message wrapped in single quotes; every
other exception here renders its plain message. -/
def errText : PyErr → String
  | .typeError m => m
  | .keyError m => "\x27" ++ m ++ "\x27"
  | .apiError m => m
  | .connectionError m => m
  | .jsonDecodeError m => m
  | .attributeError m => m
  | .telegramError m => m

/-- Association-list lookup, first match: models a Python dict access (dict
keys are unique, so first match is the match). -/
def pyLookup : List (String × Py) → String → Option Py
  | [], _ => none
  | (k, v) :: rest, key => if k = key then some v else pyLookup rest key

/-- `key in d` for a dict `d`. -/
def pyHasKey (kvs : List (String × Py)) (key : String) : Bool :=
  (pyLookup kvs key).isSome

/-- `d.get(key)` for a dict: the value, or `None` when absent. -/
def pyDictGet (kvs : List (String × Py)) (key : String) : Py :=
  (pyLookup kvs key).getD .pyNone

/-- `d.get(key)` applied to a value statically typed as a dict; any non-dict
argument is unreachable in the places this is used (after validation). -/
def pyGet : Py → String → Py
  | .pyDict kvs, key => pyDictGet kvs key
  | _, _ => .pyNone

/-- `f"{type(v)}"`. -/
def pyTypeName : Py → String
  | .pyNone => "<class \x27NoneType\x27>"
  | .pyInt _ => "<class \x27int\x27>"
  | .pyStr _ => "<class \x27str\x27>"
  | .pyList _ => "<class \x27list\x27>"
  | .pyDict _ => "<class \x27dict\x27>"

/-- The bare type name, as it appears inside interpreter error messages. -/
def pyTypeShort : Py → String
  | .pyNone => "NoneType"
  | .pyInt _ => "int"
  | .pyStr _ => "str"
  | .pyList _ => "list"
  | .pyDict _ => "dict"

/-- `str(v)` for the values interpolated into f-strings here (names and
status codes: ints and strings in practice). -/
def pyToStr : Py → String
  | .pyNone => "None"
  | .pyInt n => toString n
  | .pyStr s => s
  | .pyList _ => "<list>"
  | .pyDict _ => "<dict>"

/-- `repr(v)`, used when a dict containing the value is interpolated. -/
def pyRepr : Py → String
  | .pyNone => "None"
  | .pyInt n => toString n
  | .pyStr s => "\x27" ++ s ++ "\x27"
  | .pyList _ => "<list>"
  | .pyDict _ => "<dict>"

/-- Python truthiness for the values above (`if not homeworks:`). -/
def pyFalsy : Py → Bool
  | .pyNone => true
  | .pyInt n => n = 0
  | .pyStr s => s = ""
  | .pyList xs => xs.isEmpty
  | .pyDict kvs => kvs.isEmpty

/-! ## Module constants (homework.py) -/

def ENDPOINT : String :=
  "https://practicum.yandex.ru/api/user_api/homework_statuses/"

def HOMEWORKS_KEY : String := "homeworks"

def CURR_TIME_KEY : String := "current_date"

def HOMEWORK_VERDICTS : List (String × String) :=
  [("approved", "Работа проверена: ревьюеру всё понравилось. Ура!"),
   ("reviewing", "Работа взята на проверку ревьюером."),
   ("rejected", "Работа проверена: у ревьюера есть замечания.")]

def verdictLookup : List (String × String) → String → Option String
  | [], _ => none
  | (k, v) :: rest, key => if k = key then some v else verdictLookup rest key

/-! ## check_tokens

The three globals are read from the environment at import time: an unset
variable yields `None` (`none` here), a set one yields its string value —
including the empty string. -/

/-- The names collected by the loop in `check_tokens`: those whose global is
`None`. -/
def empty_tokens (practicum_token telegram_token telegram_chat_id : Option String) :
    List String :=
  (if practicum_token = none then ["PRACTICUM_TOKEN"] else []) ++
  (if telegram_token = none then ["TELEGRAM_TOKEN"] else []) ++
  (if telegram_chat_id = none then ["TELEGRAM_CHAT_ID"] else [])

/-- `check_tokens()`: collect the names of `None`-valued secrets; raise one
`TypeError` naming all of them, or return `None`. -/
def check_tokens (practicum_token telegram_token telegram_chat_id : Option String) :
    Except PyErr Unit :=
  let missing := empty_tokens practicum_token telegram_token telegram_chat_id
  if missing.isEmpty then .ok ()
  else
    .error (.typeError
      ("Tokens [" ++ String.intercalate ", " missing ++ "] are not defined."))

/-! ## send_message -/

/-- Outcome of the external `bot.send_message` call. -/
inductive SendOutcome where
  | delivered : SendOutcome
  | telegramFailure : String → SendOutcome
deriving DecidableEq

/-- What `send_message` makes observable: what it raises to its caller (the
except clause catches `TelegramError`, so in fact nothing), and the error
text it hands to `logger.error`, if any. -/
structure SendResult where
  raised : Option PyErr
  logged_error : Option String
deriving DecidableEq

/-- `send_message(bot, message)`: attempt delivery; a `TelegramError` from
the transport is caught and logged, and the function returns normally. -/
def send_message (chat_id : String) (transport : SendOutcome) (_message : String) :
    SendResult :=
  match transport with
  | .delivered => ⟨none, none⟩
  | .telegramFailure err =>
      ⟨none,
       some ("Error while sending message to chat ID " ++ chat_id ++ ": " ++ err)⟩

/-! ## get_api_answer -/

/-- The outside world of one `requests.get` call: either the request itself
raises a `RequestException`, or an HTTP response arrives with a status code,
a reason phrase, and a body that either parses as JSON (`some v`) or does
not (`none`). -/
inductive FetchResult where
  | requestFailure : String → FetchResult
  | httpResponse : Nat → String → Option Py → FetchResult

/-- `repr({'from_date': timestamp})` as interpolated into the
`ConnectionError` message. -/
def reprPayload (timestamp : Py) : String :=
  "\x7b\x27from_date\x27: " ++ pyRepr timestamp ++ "\x7d"

/-- `get_api_answer(timestamp)`: a `RequestException` becomes a
`ConnectionError`; a non-200 status raises `APIError`; otherwise
`res.json()` is returned — and when the body is not valid JSON that call
raises `requests.exceptions.JSONDecodeError`, which is *outside* the
try/except and so propagates as-is. -/
def get_api_answer (timestamp : Py) (net : FetchResult) : Except PyErr Py :=
  match net with
  | .requestFailure err =>
      .error (.connectionError
        ("Error while requesting API answer from endpoint \"" ++ ENDPOINT ++
         "\" with parameters: " ++ reprPayload timestamp ++ "\n " ++ err))
  | .httpResponse status reason body =>
      if status ≠ 200 then
        .error (.apiError
          ("Got unexpected status (" ++ toString status ++ " - " ++ reason ++
           ") from API."))
      else
        match body with
        | some ans => .ok ans
        | none => .error (.jsonDecodeError "Expecting value: line 1 column 1 (char 0)")

/-! ## check_response -/

/-- The keys whose absence `check_response` collects. -/
def answer_keys : List String := [HOMEWORKS_KEY, CURR_TIME_KEY]

/-- The missing-key list built by the loop in `check_response`. -/
def response_missing_keys (kvs : List (String × Py)) : List String :=
  answer_keys.filter (fun key => !(pyHasKey kvs key))

/-- `check_response(response)`: reject a non-dict with `TypeError`; collect
all missing required keys into one `KeyError`; reject a non-list homeworks
value with `TypeError`; otherwise return `None`. -/
def check_response (response : Py) : Except PyErr Unit :=
  match response with
  | .pyDict kvs =>
      let missing := response_missing_keys kvs
      if missing.isEmpty then
        match pyDictGet kvs HOMEWORKS_KEY with
        | .pyList _ => .ok ()
        | hw =>
            .error (.typeError
              ("Homeworks object type is " ++ pyTypeName hw ++
               ", expected type: list."))
      else
        .error (.keyError
          ("Not found keys [" ++ String.intercalate ", " missing ++ "] in response."))
  | other =>
      .error (.typeError
        ("Response object type is " ++ pyTypeName other ++ ", expected type: dict."))

/-! ## parse_status -/

/-- The missing-key list built by the loop in `parse_status` (iterating
`homework_keys.values()`, i.e. `homework_name` then `status`). -/
def homework_missing_keys (homework : List (String × Py)) : List String :=
  ["homework_name", "status"].filter (fun key => !(pyHasKey homework key))

/-- `HOMEWORK_VERDICTS[status]` for a status that is an arbitrary Python
value: strings are looked up; `None`/ints are hashable but never keys, so
`KeyError`; lists and dicts are unhashable, so `TypeError` (which the
`except KeyError` in `parse_status` would not catch). -/
def verdicts_getitem : Py → Except PyErr String
  | .pyStr s =>
      match verdictLookup HOMEWORK_VERDICTS s with
      | some v => .ok v
      | none => .error (.keyError s)
  | .pyList _ => .error (.typeError "unhashable type: \x27list\x27")
  | .pyDict _ => .error (.typeError "unhashable type: \x27dict\x27")
  | other => .error (.keyError (pyToStr other))

/-- `parse_status(homework)`: collect missing `homework_name`/`status` keys
into one `KeyError`; look the status up in `HOMEWORK_VERDICTS`, re-raising a
`KeyError` naming the unknown code; return the fixed-template message. -/
def parse_status (homework : List (String × Py)) : Except PyErr String :=
  let missing := homework_missing_keys homework
  if missing.isEmpty then
    let status := pyDictGet homework "status"
    match verdicts_getitem status with
    | .ok verdict =>
        let homework_name := pyDictGet homework "homework_name"
        .ok ("Изменился статус проверки работы \"" ++ pyToStr homework_name ++
             "\". " ++ verdict)
    | .error (.keyError _) =>
        .error (.keyError ("Not found key " ++ pyToStr status ++ " in verdicts dict."))
    | .error e => .error e
  else
    .error (.keyError
      ("Not found keys [" ++ String.intercalate ", " missing ++ "] in homework obj."))

/-! ## The loop body of main

`main` holds two loop variables: `timestamp` (initially `int(time.time())`)
and `msg` (initially `''`, the text of the last notification attempt).  One
iteration of the `while True:` body is `cycle` below; the outside world of
one iteration is a `FetchResult`.  The Telegram transport cannot influence
control flow (`send_message` swallows its errors), so the cycle records the
texts of the send attempts it makes, in order. -/

structure BotState where
  timestamp : Py
  msg : String

/-- `'homework_name' in hw` / `'status' in hw` when the popped element is
not a dict: `in` on a list compares elements, on a string it is substring
containment, and on `None`/`int` it raises `TypeError`. -/
def pyContainsKey (v : Py) (key : String) : Except PyErr Bool :=
  match v with
  | .pyDict kvs => .ok (pyHasKey kvs key)
  | .pyList xs =>
      .ok (xs.any (fun x =>
        match x with
        | .pyStr s => s = key
        | _ => false))
  | .pyStr s => .ok (s.containsSubstr key)
  | other =>
      .error (.typeError
        ("argument of type \x27" ++ pyTypeShort other ++ "\x27 is not iterable"))

/-- `parse_status(hw)` for an element of arbitrary shape: dicts take the
real path; a list or string passes the `in` checks only to fail on `.get`;
`None`/`int` fail already at the `in` check. -/
def parse_status_of : Py → Except PyErr String
  | .pyDict kvs => parse_status kvs
  | other =>
      match pyContainsKey other "homework_name" with
      | .error e => .error e
      | .ok hasName =>
          match pyContainsKey other "status" with
          | .error e => .error e
          | .ok hasStatus =>
              let missing :=
                (if hasName then [] else ["homework_name"]) ++
                (if hasStatus then [] else ["status"])
              if missing.isEmpty then
                .error (.attributeError
                  ("\x27" ++ pyTypeShort other ++
                   "\x27 object has no attribute \x27get\x27"))
              else
                .error (.keyError
                  ("Not found keys [" ++ String.intercalate ", " missing ++
                   "] in homework obj."))

/-- Which control path one iteration of the loop body takes, as decided by
the three `try` blocks of `main` in order. -/
inductive CycleStep where
  | fetchFailed : PyErr → CycleStep
  | checkFailed : PyErr → CycleStep
  | emptyHomeworks : Py → CycleStep
  | statusFailed : Py → PyErr → CycleStep
  | notified : Py → String → CycleStep

/-- The loop body after a successful fetch: validate, then either the
empty-homeworks shortcut or `parse_status(homeworks.pop())`.
`homeworks.pop()` takes the *last* element; a non-list `homeworks` (dead
after validation) fails on `.pop`. -/
def classify_answer (api_ans : Py) : CycleStep :=
  match check_response api_ans with
  | .error err => .checkFailed err
  | .ok _ =>
      if pyFalsy (pyGet api_ans HOMEWORKS_KEY) then .emptyHomeworks api_ans
      else
        match pyGet api_ans HOMEWORKS_KEY with
        | .pyList hws =>
            match parse_status_of (hws.getLastD .pyNone) with
            | .ok m => .notified api_ans m
            | .error err => .statusFailed api_ans err
        | other =>
            .statusFailed api_ans
              (.attributeError
                ("\x27" ++ pyTypeShort other ++
                 "\x27 object has no attribute \x27pop\x27"))

/-- Trace one loop body iteration: fetch, then `classify_answer`. -/
def classify (timestamp : Py) (net : FetchResult) : CycleStep :=
  match get_api_answer timestamp net with
  | .error err => .fetchFailed err
  | .ok api_ans => classify_answer api_ans

/-- The failure-notification branch shared by the three `except` blocks:
send only when the rendered text differs from `msg`, then remember it. -/
def notify_failure (st : BotState) (err_msg : String) : BotState × List String :=
  if err_msg ≠ st.msg then (⟨st.timestamp, err_msg⟩, [err_msg]) else (st, [])

/-- One iteration of the `while True:` body of `main`: the successor state
(`timestamp`, `msg`) and the texts passed to `send_message`, in order. -/
def cycle (st : BotState) (net : FetchResult) : BotState × List String :=
  match classify st.timestamp net with
  | .fetchFailed err =>
      notify_failure st ("Ошибка при обращении к API: " ++ errText err)
  | .checkFailed err =>
      notify_failure st ("Непредусмотренный ответ от API: " ++ errText err)
  | .emptyHomeworks api_ans =>
      (⟨pyGet api_ans CURR_TIME_KEY, st.msg⟩, [])
  | .statusFailed _ err =>
      notify_failure st ("Ошибка при проверке статуса ДЗ: " ++ errText err)
  | .notified api_ans m =>
      (⟨pyGet api_ans CURR_TIME_KEY, m⟩, [m])

/-- The rendered failure text of an iteration, when the iteration takes one
of the three failure paths. -/
def cycleFailText (st : BotState) (net : FetchResult) : Option String :=
  match classify st.timestamp net with
  | .fetchFailed err => some ("Ошибка при обращении к API: " ++ errText err)
  | .checkFailed err => some ("Непредусмотренный ответ от API: " ++ errText err)
  | .statusFailed _ err => some ("Ошибка при проверке статуса ДЗ: " ++ errText err)
  | _ => none

/-- Whether an iteration is fully successful, i.e. reaches one of the two
paths that assign `timestamp = api_ans.get(CURR_TIME_KEY)`. -/
def cycleSuccess (timestamp : Py) (net : FetchResult) : Bool :=
  match classify timestamp net with
  | .emptyHomeworks _ => true
  | .notified _ _ => true
  | _ => false

/-- The JSON answer carried by a fetch result, if any. -/
def netAnswer : FetchResult → Option Py
  | .httpResponse _ _ body => body
  | .requestFailure _ => none

/-- The watermark (`current_date` value) reported in a fetch result's
answer. -/
def answerWatermark (net : FetchResult) : Py :=
  match netAnswer net with
  | some ans => pyGet ans CURR_TIME_KEY
  | none => .pyNone

/-- Several iterations of the loop body against a sequence of fetch
results, accumulating all send attempts. -/
def run (st : BotState) (nets : List FetchResult) : BotState × List String :=
  match nets with
  | [] => (st, [])
  | n :: rest =>
      let step := cycle st n
      let remainder := run step.1 rest
      (remainder.1, step.2 ++ remainder.2)

/-! ## Concrete sample values

Sample inputs used below to evaluate the embedded functions at specific
points: two well-formed homework records, an answer carrying both, an
otherwise-valid answer with an empty homeworks list, and loop states. -/

def sample_hw1 : List (String × Py) :=
  [("homework_name", .pyStr "hw1"), ("status", .pyStr "approved")]

def sample_hw2 : List (String × Py) :=
  [("homework_name", .pyStr "hw2"), ("status", .pyStr "rejected")]

def sample_answer2 : Py :=
  .pyDict [(HOMEWORKS_KEY, .pyList [.pyDict sample_hw1, .pyDict sample_hw2]),
           (CURR_TIME_KEY, .pyInt 42)]

def sample_empty_answer : Py :=
  .pyDict [(HOMEWORKS_KEY, .pyList []), (CURR_TIME_KEY, .pyInt 50)]

def sample_state : BotState := ⟨.pyInt 100, ""⟩

/-- Whether a value is a Python list. -/
def pyIsList : Py → Bool
  | .pyList _ => true
  | _ => false

/-- Whether a value is a Python dict. -/
def pyIsDict : Py → Bool
  | .pyDict _ => true
  | _ => false

/-! ## Structural lemmas about one iteration -/

/-- A successful fetch hands over exactly the parsed response body. -/
lemma get_api_answer_ok {ts : Py} {net : FetchResult} {a : Py}
    (h : get_api_answer ts net = .ok a) : netAnswer net = some a := by
  cases net with
  | requestFailure e => simp [get_api_answer] at h
  | httpResponse s r body =>
      by_cases hs : s = 200
      · subst hs
        cases body with
        | none => simp [get_api_answer] at h
        | some ans =>
            simp [get_api_answer] at h
            simp [netAnswer, h]
      · simp [get_api_answer, hs] at h

/-- The answer carried by an empty-homeworks step is the fetched body. -/
lemma classify_answer_empty {api_ans a : Py}
    (h : classify_answer api_ans = .emptyHomeworks a) : a = api_ans := by
  unfold classify_answer at h
  split at h
  · simp at h
  · split at h
    · cases h; rfl
    · split at h
      · split at h <;> simp at h
      · simp at h

/-- The answer carried by a notified step is the fetched body. -/
lemma classify_answer_notified {api_ans a : Py} {m : String}
    (h : classify_answer api_ans = .notified a m) : a = api_ans := by
  unfold classify_answer at h
  split at h
  · simp at h
  · split at h
    · simp at h
    · split at h
      · split at h
        · cases h; rfl
        · simp at h
      · simp at h

lemma netAnswer_of_empty {ts : Py} {net : FetchResult} {a : Py}
    (h : classify ts net = .emptyHomeworks a) : netAnswer net = some a := by
  unfold classify at h
  cases hg : get_api_answer ts net with
  | error err => rw [hg] at h; simp at h
  | ok api_ans =>
      rw [hg] at h
      simp only [] at h
      have ha := classify_answer_empty h
      subst ha
      exact get_api_answer_ok hg

lemma netAnswer_of_notified {ts : Py} {net : FetchResult} {a : Py} {m : String}
    (h : classify ts net = .notified a m) : netAnswer net = some a := by
  unfold classify at h
  cases hg : get_api_answer ts net with
  | error err => rw [hg] at h; simp at h
  | ok api_ans =>
      rw [hg] at h
      simp only [] at h
      have ha := classify_answer_notified h
      subst ha
      exact get_api_answer_ok hg

/-- The failure-notification branch, written as one equation. -/
lemma notify_failure_eq (st : BotState) (e : String) :
    notify_failure st e = (⟨st.timestamp, e⟩, if e = st.msg then [] else [e]) := by
  unfold notify_failure
  by_cases hm : e = st.msg
  · subst hm; simp
  · simp [hm]

/-- A cycle that takes a failure path leaves `timestamp` alone, remembers
the rendered text, and sends it exactly when it differs from the remembered
one. -/
lemma cycle_fail {st : BotState} {net : FetchResult} {e : String}
    (h : cycleFailText st net = some e) :
    cycle st net = (⟨st.timestamp, e⟩, if e = st.msg then [] else [e]) := by
  unfold cycleFailText at h
  unfold cycle
  cases hc : classify st.timestamp net with
  | fetchFailed err =>
      rw [hc] at h
      simp only [Option.some.injEq] at h
      rw [← h]
      exact notify_failure_eq st _
  | checkFailed err =>
      rw [hc] at h
      simp only [Option.some.injEq] at h
      rw [← h]
      exact notify_failure_eq st _
  | statusFailed a err =>
      rw [hc] at h
      simp only [Option.some.injEq] at h
      rw [← h]
      exact notify_failure_eq st _
  | emptyHomeworks a => rw [hc] at h; simp at h
  | notified a m => rw [hc] at h; simp at h

lemma get_api_answer_200 (ts : Py) (r : String) (ans : Py) :
    get_api_answer ts (.httpResponse 200 r (some ans)) = .ok ans := by
  simp [get_api_answer]

lemma classify_200 (ts : Py) (r : String) (ans : Py) :
    classify ts (.httpResponse 200 r (some ans)) = classify_answer ans := by
  unfold classify
  rw [get_api_answer_200]

/-- A validated answer with an empty homeworks list takes the
empty-homeworks shortcut. -/
lemma classify_answer_empty_list {ans : Py} (hc : check_response ans = .ok ())
    (hh : pyGet ans HOMEWORKS_KEY = .pyList []) :
    classify_answer ans = .emptyHomeworks ans := by
  simp [classify_answer, hc, hh, pyFalsy]

/-- A validated answer with a non-empty homeworks list whose last element
parses leads to a notification with the parsed text. -/
lemma classify_answer_notified_of {ans : Py} {hws : List Py}
    {hw : List (String × Py)} {m : String}
    (hc : check_response ans = .ok ())
    (hh : pyGet ans HOMEWORKS_KEY = .pyList hws) (hne : hws ≠ [])
    (hl : hws.getLastD .pyNone = .pyDict hw) (hp : parse_status hw = .ok m) :
    classify_answer ans = .notified ans m := by
  rw [List.getLastD_eq_getLast?] at hl
  simp [classify_answer, hc, hh, pyFalsy, List.isEmpty_iff, hne, hl,
    parse_status_of, hp]

lemma cycle_step_empty {st : BotState} {net : FetchResult} {a : Py}
    (h : classify st.timestamp net = .emptyHomeworks a) :
    cycle st net = (⟨pyGet a CURR_TIME_KEY, st.msg⟩, []) := by
  unfold cycle
  rw [h]

lemma cycle_step_notified {st : BotState} {net : FetchResult} {a : Py}
    {m : String} (h : classify st.timestamp net = .notified a m) :
    cycle st net = (⟨pyGet a CURR_TIME_KEY, m⟩, [m]) := by
  unfold cycle
  rw [h]

/-- An iteration either renders a failure text or is fully successful. -/
lemma cycleFailText_none_iff (st : BotState) (net : FetchResult) :
    cycleFailText st net = none ↔ cycleSuccess st.timestamp net = true := by
  unfold cycleFailText cycleSuccess
  cases classify st.timestamp net <;> simp

/-! ## Claims about the individual components -/

/-- C5: for every homework record containing the keys `homework_name` and
`status`, a status in the verdict table yields exactly the template message
`Изменился статус проверки работы "{name}". {verdict}` with the table's
verbatim verdict text, and a status outside the table raises a `KeyError`
naming the unknown code instead of returning a message. -/
theorem C5_parse_status_template (hw : List (String × Py)) (nameV : Py)
    (code : String)
    (hn : pyLookup hw "homework_name" = some nameV)
    (hs : pyLookup hw "status" = some (.pyStr code)) :
    (∀ v, verdictLookup HOMEWORK_VERDICTS code = some v →
        parse_status hw = .ok
          ("Изменился статус проверки работы \"" ++ pyToStr nameV ++ "\". " ++ v))
    ∧ (verdictLookup HOMEWORK_VERDICTS code = none →
        parse_status hw = .error (.keyError
          ("Not found key " ++ code ++ " in verdicts dict."))) := by
  have hmk : homework_missing_keys hw = [] := by
    simp [homework_missing_keys, pyHasKey, hn, hs]
  constructor
  · intro v hv
    simp [parse_status, hmk, pyDictGet, hn, hs, verdicts_getitem, hv, pyToStr]
  · intro hv
    simp [parse_status, hmk, pyDictGet, hn, hs, verdicts_getitem, hv, pyToStr]

/-- Witness for C5 at the spec's example records. -/
theorem C5_witness :
    parse_status [("homework_name", .pyStr "diplom"), ("status", .pyStr "approved")] =
      .ok "Изменился статус проверки работы \"diplom\". Работа проверена: ревьюеру всё понравилось. Ура!"
    ∧ parse_status [("homework_name", .pyStr "diplom"), ("status", .pyStr "pending")] =
      .error (.keyError "Not found key pending in verdicts dict.") := by
  constructor
  · exact (C5_parse_status_template
      [("homework_name", .pyStr "diplom"), ("status", .pyStr "approved")]
      (.pyStr "diplom") "approved" rfl rfl).1
      "Работа проверена: ревьюеру всё понравилось. Ура!" rfl
  · exact (C5_parse_status_template
      [("homework_name", .pyStr "diplom"), ("status", .pyStr "pending")]
      (.pyStr "diplom") "pending" rfl rfl).2 rfl

/-- C8: the response validator rejects a non-dict payload with a wrong-type
error, rejects a dict missing required keys with one error naming all
missing keys (collected, not short-circuited), rejects a dict whose
homeworks value is not a list with a wrong-type error, and accepts
everything else. -/
theorem C8_check_response_schema :
    (∀ p : Py, pyIsDict p = false →
        check_response p = .error (.typeError
          ("Response object type is " ++ pyTypeName p ++ ", expected type: dict.")))
    ∧ (∀ kvs : List (String × Py), response_missing_keys kvs ≠ [] →
        check_response (.pyDict kvs) = .error (.keyError
          ("Not found keys [" ++ String.intercalate ", " (response_missing_keys kvs)
            ++ "] in response.")))
    ∧ (∀ kvs key, key ∈ response_missing_keys kvs ↔
        (key ∈ answer_keys ∧ pyHasKey kvs key = false))
    ∧ check_response (.pyDict [(CURR_TIME_KEY, .pyInt 123)]) =
        .error (.keyError "Not found keys [homeworks] in response.")
    ∧ check_response (.pyDict [(HOMEWORKS_KEY, .pyStr "not-a-list"),
        (CURR_TIME_KEY, .pyInt 123)]) =
        .error (.typeError
          "Homeworks object type is <class \x27str\x27>, expected type: list.")
    ∧ (∀ kvs v, response_missing_keys kvs = [] →
        pyDictGet kvs HOMEWORKS_KEY = v → pyIsList v = false →
        check_response (.pyDict kvs) = .error (.typeError
          ("Homeworks object type is " ++ pyTypeName v ++ ", expected type: list.")))
    ∧ (∀ kvs hws, response_missing_keys kvs = [] →
        pyDictGet kvs HOMEWORKS_KEY = .pyList hws →
        check_response (.pyDict kvs) = .ok ()) := by
  refine ⟨?_, ?_, ?_, rfl, rfl, ?_, ?_⟩
  · intro p hp
    cases p <;> simp [check_response] <;> simp [pyIsDict] at hp
  · intro kvs hm
    simp [check_response, List.isEmpty_iff, hm]
  · intro kvs key
    simp [response_missing_keys, List.mem_filter]
  · intro kvs v hm hv hl
    cases v <;> simp [check_response, List.isEmpty_iff, hm, hv] <;>
      simp [pyIsList] at hl
  · intro kvs hws hm hv
    simp [check_response, List.isEmpty_iff, hm, hv]

/-- Witness for C8: a scalar payload is rejected as wrong type and a
well-formed payload passes. -/
theorem C8_witness :
    check_response (.pyInt 5) = .error (.typeError
      "Response object type is <class \x27int\x27>, expected type: dict.")
    ∧ check_response (.pyDict [(HOMEWORKS_KEY, .pyList []), (CURR_TIME_KEY, .pyInt 1)]) =
      .ok () := by
  obtain ⟨h1, _, _, _, _, _, h7⟩ := C8_check_response_schema
  exact ⟨h1 (.pyInt 5) rfl, h7 _ [] rfl rfl⟩

/-- C9: the credential check collects every absent secret and reports them
all in a single fatal error; when all three are present it returns with no
observable effect. -/
theorem C9_check_tokens_report (p t c : Option String) :
    (p ≠ none → t ≠ none → c ≠ none → check_tokens p t c = .ok ())
    ∧ ((p = none ∨ t = none ∨ c = none) →
        check_tokens p t c = .error (.typeError
          ("Tokens [" ++ String.intercalate ", " (empty_tokens p t c)
            ++ "] are not defined.")))
    ∧ ("PRACTICUM_TOKEN" ∈ empty_tokens p t c ↔ p = none)
    ∧ ("TELEGRAM_TOKEN" ∈ empty_tokens p t c ↔ t = none)
    ∧ ("TELEGRAM_CHAT_ID" ∈ empty_tokens p t c ↔ c = none) := by
  cases p <;> cases t <;> cases c <;>
    simp [check_tokens, empty_tokens]

/-- Witness for C9: with both token secrets unset the single error names
both of them; with all secrets set the check succeeds. -/
theorem C9_witness :
    check_tokens (some "x") (some "y") (some "z") = .ok ()
    ∧ check_tokens none none (some "z") = .error (.typeError
        "Tokens [PRACTICUM_TOKEN, TELEGRAM_TOKEN] are not defined.") := by
  obtain ⟨h1, _, _⟩ := C9_check_tokens_report (some "x") (some "y") (some "z")
  obtain ⟨_, g2, _⟩ := C9_check_tokens_report none none (some "z")
  exact ⟨h1 (by simp) (by simp) (by simp), g2 (Or.inl rfl)⟩

/-- C10: the credential check raises exactly when one of the three globals
is `None`; a secret set to the empty string counts as present, so startup
proceeds with an empty token. -/
theorem C10_empty_string_passes :
    check_tokens (some "") (some "") (some "") = .ok ()
    ∧ ∀ p t c : Option String,
        ((∃ e, check_tokens p t c = .error e) ↔ (p = none ∨ t = none ∨ c = none)) := by
  constructor
  · rfl
  · intro p t c
    cases p <;> cases t <;> cases c <;> simp [check_tokens, empty_tokens]

/-- C3 counterexample: when the transport raises a `TelegramError`, the
notifier raises nothing to its caller — the error is not returned/raised. -/
theorem C3_counterexample :
    (send_message "42" (.telegramFailure "Bad Request: chat not found") "hi").raised
      = none := rfl

/-- C3 amended: a transport-level error is caught inside the notifier and
logged with the chat id and the error text; the notifier never raises
anything to its caller. -/
theorem C3_delivery_error_swallowed :
    (∀ chat outcome m, (send_message chat outcome m).raised = none)
    ∧ (∀ chat e m, (send_message chat (.telegramFailure e) m).logged_error =
        some ("Error while sending message to chat ID " ++ chat ++ ": " ++ e))
    ∧ (∀ chat m, (send_message chat .delivered m).logged_error = none) := by
  refine ⟨?_, ?_, ?_⟩
  · intro chat outcome m
    cases outcome <;> rfl
  · intro chat e m
    rfl
  · intro chat m
    rfl

/-- C6: a transport failure becomes `ConnectionError`, a non-200 status
becomes `APIError` with the status and reason — but a 200 response whose
body fails to parse escapes as the raw `JSONDecodeError`, which is neither
of the two documented classifications. -/
theorem C6_fetch_classification :
    (∀ ts e, get_api_answer ts (.requestFailure e) = .error (.connectionError
        ("Error while requesting API answer from endpoint \"" ++ ENDPOINT ++
         "\" with parameters: " ++ reprPayload ts ++ "\n " ++ e)))
    ∧ (∀ ts s r body, s ≠ 200 → get_api_answer ts (.httpResponse s r body) =
        .error (.apiError ("Got unexpected status (" ++ toString s ++ " - " ++ r
          ++ ") from API.")))
    ∧ get_api_answer (.pyInt 0) (.httpResponse 200 "OK" none) =
        .error (.jsonDecodeError "Expecting value: line 1 column 1 (char 0)")
    ∧ (∀ m, (Except.error (PyErr.jsonDecodeError "Expecting value: line 1 column 1 (char 0)")
          : Except PyErr Py) ≠ .error (.apiError m))
    ∧ (∀ m, (Except.error (PyErr.jsonDecodeError "Expecting value: line 1 column 1 (char 0)")
          : Except PyErr Py) ≠ .error (.connectionError m)) := by
  refine ⟨fun ts e => rfl, ?_, rfl, by simp, by simp⟩
  intro ts s r body hs
  simp [get_api_answer, hs]

/-- Witness for C6 at a concrete non-200 response. -/
theorem C6_witness :
    get_api_answer (.pyInt 0) (.httpResponse 404 "Not Found" none) =
      .error (.apiError "Got unexpected status (404 - Not Found) from API.") := by
  exact C6_fetch_classification.2.1 (.pyInt 0) 404 "Not Found" none (by decide)

/-! ## Claims about the loop body -/

/-- C1: a fully successful cycle (200 JSON answer, validation passes, and —
when the homeworks list is non-empty — translation of the processed record
succeeds) sets `timestamp` to exactly the answer's `current_date`; an empty
homeworks list moreover sends nothing; and a cycle failing at any step
(fetch, validation, or translation) leaves `timestamp` unchanged. -/
theorem C1_watermark_advance (st : BotState) (reason : String) (ans : Py) :
    (check_response ans = .ok () → pyGet ans HOMEWORKS_KEY = .pyList [] →
        (cycle st (.httpResponse 200 reason (some ans))).1.timestamp =
            pyGet ans CURR_TIME_KEY
          ∧ (cycle st (.httpResponse 200 reason (some ans))).2 = [])
    ∧ (∀ hws hw m, check_response ans = .ok () →
        pyGet ans HOMEWORKS_KEY = .pyList hws → hws ≠ [] →
        hws.getLastD .pyNone = .pyDict hw → parse_status hw = .ok m →
        (cycle st (.httpResponse 200 reason (some ans))).1.timestamp =
          pyGet ans CURR_TIME_KEY)
    ∧ (∀ net e, cycleFailText st net = some e →
        (cycle st net).1.timestamp = st.timestamp) := by
  refine ⟨?_, ?_, ?_⟩
  · intro hc hh
    have hcl : classify st.timestamp (.httpResponse 200 reason (some ans)) =
        .emptyHomeworks ans := by
      rw [classify_200]
      exact classify_answer_empty_list hc hh
    rw [cycle_step_empty hcl]
    exact ⟨rfl, rfl⟩
  · intro hws hw m hc hh hne hl hp
    have hcl : classify st.timestamp (.httpResponse 200 reason (some ans)) =
        .notified ans m := by
      rw [classify_200]
      exact classify_answer_notified_of hc hh hne hl hp
    rw [cycle_step_notified hcl]
  · intro net e h
    rw [cycle_fail h]

/-- Witness for C1 at a valid empty-homeworks answer. -/
theorem C1_witness :
    (cycle sample_state (.httpResponse 200 "OK" (some sample_empty_answer))).1.timestamp
      = .pyInt 50
    ∧ (cycle sample_state (.httpResponse 200 "OK" (some sample_empty_answer))).2
      = [] := by
  have h := (C1_watermark_advance sample_state "OK" sample_empty_answer).1 rfl rfl
  exact ⟨h.1, h.2⟩

/-- C2 counterexample: in an answer carrying two valid records, only the
last record's notification is sent — the first record, although it
translates successfully, is dropped in that cycle. -/
theorem C2_counterexample :
    parse_status sample_hw1 = .ok
      "Изменился статус проверки работы \"hw1\". Работа проверена: ревьюеру всё понравилось. Ура!"
    ∧ (cycle ⟨.pyInt 0, ""⟩ (.httpResponse 200 "OK" (some sample_answer2))).2 =
      ["Изменился статус проверки работы \"hw2\". Работа проверена: у ревьюера есть замечания."]
    ∧ "Изменился статус проверки работы \"hw1\". Работа проверена: ревьюеру всё понравилось. Ура!"
        ∉ (cycle ⟨.pyInt 0, ""⟩ (.httpResponse 200 "OK" (some sample_answer2))).2 := by
  refine ⟨rfl, rfl, ?_⟩
  decide

/-- C2 amended: for a validated answer with a non-empty homeworks list, the
orchestrator translates and sends exactly one notification — the one for
the *last* record of the list (`homeworks.pop()`); earlier records produce
no notification in that cycle. -/
theorem C2_last_record_only (st : BotState) (reason : String) (ans : Py)
    (hws : List Py) (hw : List (String × Py)) (m : String)
    (hc : check_response ans = .ok ())
    (hh : pyGet ans HOMEWORKS_KEY = .pyList hws) (hne : hws ≠ [])
    (hl : hws.getLastD .pyNone = .pyDict hw) (hp : parse_status hw = .ok m) :
    (cycle st (.httpResponse 200 reason (some ans))).2 = [m]
    ∧ (cycle st (.httpResponse 200 reason (some ans))).1.msg = m := by
  have hcl : classify st.timestamp (.httpResponse 200 reason (some ans)) =
      .notified ans m := by
    rw [classify_200]
    exact classify_answer_notified_of hc hh hne hl hp
  rw [cycle_step_notified hcl]
  exact ⟨rfl, rfl⟩

/-- Witness for C2 (amended) at the two-record answer. -/
theorem C2_witness :
    (cycle ⟨.pyInt 7, "prev"⟩ (.httpResponse 200 "OK" (some sample_answer2))).2 =
      ["Изменился статус проверки работы \"hw2\". Работа проверена: у ревьюера есть замечания."] := by
  exact (C2_last_record_only ⟨.pyInt 7, "prev"⟩ "OK" sample_answer2
    [.pyDict sample_hw1, .pyDict sample_hw2] sample_hw2
    "Изменился статус проверки работы \"hw2\". Работа проверена: у ревьюера есть замечания."
    rfl rfl (by simp) rfl rfl).1

/-- C4: a failing cycle sends its rendered failure text exactly when it
differs from the previous notification text, always remembers it, and a
second consecutive cycle rendering the identical failure text sends
nothing. -/
theorem C4_failure_dedup (st : BotState) (net : FetchResult) (e : String)
    (h : cycleFailText st net = some e) :
    ((cycle st net).2 = if e = st.msg then [] else [e])
    ∧ (cycle st net).1.msg = e
    ∧ (∀ net2, cycleFailText (cycle st net).1 net2 = some e →
        (cycle (cycle st net).1 net2).2 = []) := by
  have hc := cycle_fail h
  refine ⟨by rw [hc], by rw [hc], ?_⟩
  intro net2 h2
  have hc2 := cycle_fail h2
  rw [hc2]
  have hmsg : (cycle st net).1.msg = e := by rw [hc]
  simp [hmsg]

/-- Witness for C4: the same transport failure twice in a row produces one
send attempt in the first cycle and none in the second. -/
theorem C4_witness :
    (cycle ⟨.pyInt 0, ""⟩ (.requestFailure "boom")).2.length = 1
    ∧ (cycle (cycle ⟨.pyInt 0, ""⟩ (.requestFailure "boom")).1
        (.requestFailure "boom")).2 = [] := by
  have h := C4_failure_dedup ⟨.pyInt 0, ""⟩ (.requestFailure "boom")
    ("Ошибка при обращении к API: Error while requesting API answer from endpoint \"https://practicum.yandex.ru/api/user_api/homework_statuses/\" with parameters: \x7b\x27from_date\x27: 0\x7d\n boom")
    rfl
  constructor
  · rw [h.1]
    rfl
  · exact h.2.2 (.requestFailure "boom") rfl

/-- C7 counterexample: a successful cycle whose answer reports an earlier
`current_date` rolls the watermark back (from 100 to 50), so the watermark
is not monotonically non-decreasing. -/
theorem C7_counterexample :
    sample_state.timestamp = .pyInt 100
    ∧ (cycle sample_state (.httpResponse 200 "OK" (some sample_empty_answer))).1.timestamp
        = .pyInt 50
    ∧ (50 : Int) < 100 := ⟨rfl, rfl, by norm_num⟩

/-- C7 amended: the watermark changes only in a fully successful validated
cycle, and is then set to exactly the endpoint-reported `current_date`
value — which the code trusts, so an endpoint reporting an earlier value
rolls the watermark back. -/
theorem C7_watermark_only_on_success (st : BotState) (net : FetchResult) :
    (cycle st net).1.timestamp = st.timestamp
    ∨ (cycleSuccess st.timestamp net = true
       ∧ (cycle st net).1.timestamp = answerWatermark net) := by
  cases hc : classify st.timestamp net with
  | fetchFailed err =>
      left
      unfold cycle
      rw [hc]
      simp [notify_failure_eq]
  | checkFailed err =>
      left
      unfold cycle
      rw [hc]
      simp [notify_failure_eq]
  | statusFailed a err =>
      left
      unfold cycle
      rw [hc]
      simp [notify_failure_eq]
  | emptyHomeworks a =>
      right
      refine ⟨by simp [cycleSuccess, hc], ?_⟩
      rw [cycle_step_empty hc]
      unfold answerWatermark
      rw [netAnswer_of_empty hc]
  | notified a m =>
      right
      refine ⟨by simp [cycleSuccess, hc], ?_⟩
      rw [cycle_step_notified hc]
      unfold answerWatermark
      rw [netAnswer_of_notified hc]
